import Mathlib

/-!
# Verification of the DevMaster graph orchestration engine

Shallow embedding of `backend/app/agents/orchestrator.py`,
`backend/app/agents/base.py` and the state shape of
`backend/app/core/state.py`, together with theorems settling the
specification's claims about the execution engine.

Modelling conventions:
* The Python `DevMasterState` dict is modelled as the structure `State`.
  Fields the engine and the agent lifecycle never read or write except as
  opaque payload (`task_type`, `plan`, `artifacts`, `validation_results`,
  `metadata`, `context`, ...) are elided; timestamp-valued fields
  (`created_at`, `updated_at`, `start_time`, `last_update`) are kept but
  given the opaque type `Unit`, since `datetime.utcnow()` is
  non-deterministic and no claim concerns timestamp values.
* A partial state update (the dict an agent's `run` returns, merged with
  `state.update(...)`) is the structure `Updates`: one `Option` per field,
  merged by field-level overwrite in `State.update`.
* Python exceptions are modelled with `Except String`: an agent's
  `execute` has type `State → Except String AgentResult` (`Except.error`
  is a raised exception).  `BaseAgent.run` wraps every exception source in
  a bare `try/except` handler (base.py lines 85-157), so its model is a
  total function `Agent → State → Updates`.  Router functions and edge
  predicates are modelled as pure total functions, as every router and
  predicate in the repository is; consequently the `try` body of the
  engine loop cannot raise, and the engine's `except` handler
  (orchestrator.py lines 213-224, the retry policy) is transcribed but
  unreachable.
* The `while` loop of `OrchestratorGraph.execute` is modelled with an
  explicit fuel parameter; `none` (fuel exhausted) stands for a run of the
  loop longer than the fuel, `some st` for a loop that exited.
* `execute` raising `ValueError("Entry point not set")` to its caller is
  `ExecOutcome.exn "Entry point not set"`.
-/

set_option maxRecDepth 4096

/-- Node kinds, from `NodeType` in orchestrator.py (lines 19-23). -/
inductive NodeType where
  | AGENT
  | ROUTER
  | END
  deriving DecidableEq

/-- One entry of `agent_history` as written by `BaseAgent.run`
(base.py lines 124-130 and 144-150): a dict with keys `agent`, `status`,
optionally `error`, and an elided timestamp. -/
structure HistoryEntry where
  agent : String
  status : String
  error : Option String := none
  timestamp : Unit := ()
  deriving DecidableEq

/-- A serialized `Message` (core/state.py lines 48-54); timestamp and
metadata elided as opaque. -/
structure Message where
  role : String := "agent"
  content : String
  agent_name : Option String := none
  deriving DecidableEq

/-- The `DevMasterState` dict (core/state.py lines 80-137) restricted to
the fields the engine and the agent lifecycle read or write.  `status`,
`errors`, `start_time` and `last_update` are keys the orchestrator adds at
runtime (Python dicts are open).  `active_agent` and `next_agent` are
`Option` because the engine tests them with `state.get` / truthiness.
`max_retries` defaults to 3, mirroring `state.get("max_retries", 3)`. -/
structure State where
  user_request : String := ""
  project_id : String := ""
  active_agent : Option String := none
  next_agent : Option String := none
  completed_agents : List String := []
  agent_history : List HistoryEntry := []
  messages : List Message := []
  error_count : Nat := 0
  error_messages : List String := []
  errors : List String := []
  max_retries : Nat := 3
  status : String := ""
  start_time : Unit := ()
  last_update : Unit := ()
  updated_at : Unit := ()
  deriving DecidableEq

/-- A partial state update: the dict returned by `BaseAgent.run` (or an
agent's `state_updates`), merged into the state by key-level overwrite. -/
structure Updates where
  user_request : Option String := none
  project_id : Option String := none
  active_agent : Option String := none
  next_agent : Option String := none
  completed_agents : Option (List String) := none
  agent_history : Option (List HistoryEntry) := none
  messages : Option (List Message) := none
  error_count : Option Nat := none
  error_messages : Option (List String) := none
  errors : Option (List String) := none
  max_retries : Option Nat := none
  status : Option String := none
  updated_at : Option Unit := none
  deriving DecidableEq

/-- Model of `state.update(updates)` — field-level overwrite merge
(orchestrator.py line 194). -/
def State.update (s : State) (u : Updates) : State where
  user_request := u.user_request.getD s.user_request
  project_id := u.project_id.getD s.project_id
  active_agent := (u.active_agent.map some).getD s.active_agent
  next_agent := (u.next_agent.map some).getD s.next_agent
  completed_agents := u.completed_agents.getD s.completed_agents
  agent_history := u.agent_history.getD s.agent_history
  messages := u.messages.getD s.messages
  error_count := u.error_count.getD s.error_count
  error_messages := u.error_messages.getD s.error_messages
  errors := u.errors.getD s.errors
  max_retries := u.max_retries.getD s.max_retries
  status := u.status.getD s.status
  start_time := s.start_time
  last_update := s.last_update
  updated_at := (u.updated_at.map (fun _ => ())).getD s.updated_at

/-- Transcribes `AgentResult` (base.py lines 29-36). -/
structure AgentResult where
  success : Bool
  state_updates : Updates := {}
  next_agent : Option String := none
  error : Option String := none
  artifacts_created : List String := []
  messages : List Message := []

/-- A `BaseAgent` (base.py): a name plus the two overridable operations.
`execute` returning `Except.error m` models `execute` raising an
exception with message `m`.  The mutable telemetry field `self.state`
(`AgentState`) is observational only and elided. -/
structure Agent where
  name : String
  description : String := ""
  validate_preconditions : State → Bool := fun _ => true
  execute : State → Except String AgentResult

/-- Transcribes `BaseAgent.run` (base.py lines 76-157).  The whole body sits in a
`try/except Exception` block, so `run` is a total function: a false
precondition raises `ValueError("Preconditions not met for agent {name}")`
and any exception from `execute` is caught; both produce the error delta
of lines 140-157, whose `error_messages` entry is `"[{name}] {message}"`.
On a normal `execute` return the delta of lines 100-132 is produced. -/
def Agent.run (a : Agent) (state : State) : Updates :=
  match (if a.validate_preconditions state then a.execute state
         else Except.error ("Preconditions not met for agent " ++ a.name)) with
  | Except.ok result =>
    let updates := result.state_updates
    -- Add agent to completed list (only on success, only if absent)
    let completed := state.completed_agents
    let updates :=
      if !(completed.contains a.name) && result.success then
        { updates with completed_agents := some (completed ++ [a.name]) }
      else updates
    -- Update active agent (Python truthiness: None and "" are falsy)
    let updates :=
      match result.next_agent with
      | some na => if na = "" then updates else { updates with active_agent := some na }
      | none => updates
    -- Add messages
    let updates :=
      if result.messages = [] then updates
      else { updates with messages := some (state.messages ++ result.messages) }
    -- Update last update timestamp
    let updates := { updates with updated_at := some () }
    -- Update agent history
    { updates with
        agent_history := some (state.agent_history ++
          [{ agent := a.name,
             status := if result.success then "completed" else "failed" }]) }
  | Except.error e =>
    { error_messages := some (state.error_messages ++ ["[" ++ a.name ++ "] " ++ e]),
      error_count := some (state.error_count + 1),
      agent_history := some (state.agent_history ++
        [{ agent := a.name, status := "failed", error := some e }]),
      updated_at := some () }

/-- An `Edge` (orchestrator.py lines 26-43). -/
structure Edge where
  source : String
  target : String
  condition : Option (State → Bool) := none

/-- Transcribes `Edge.should_traverse` (orchestrator.py lines 39-43). -/
def Edge.should_traverse (e : Edge) (state : State) : Bool :=
  match e.condition with
  | none => true
  | some c => c state

/-- A `Node` (orchestrator.py lines 46-64). -/
structure Node where
  name : String
  type : NodeType
  agent : Option Agent := none
  router_func : Option (State → String) := none
  edges : List Edge := []

/-- The `OrchestratorGraph` object: `self.nodes` is an insertion-ordered
dict (modelled as an association list) and `self.entry_point` an optional
name. -/
structure Graph where
  name : String := "DevMasterOrchestrator"
  nodes : List (String × Node) := []
  entry_point : Option String := none

/-- Dict lookup `self.nodes[name]` / membership. -/
def Graph.find_node (g : Graph) (name : String) : Option Node :=
  (g.nodes.find? (fun p => p.1 = name)).map Prod.snd

/-- Membership test `name in self.nodes`. -/
def Graph.mem_node (g : Graph) (name : String) : Bool :=
  (g.find_node name).isSome

/-- Transcribes `OrchestratorGraph.__init__` (orchestrator.py lines 77-84): a fresh
graph holding only the special `END` node. -/
def OrchestratorGraph (name : String := "DevMasterOrchestrator") : Graph :=
  { name := name,
    nodes := [("END", { name := "END", type := NodeType.END })] }

/-- Transcribes `add_node` (orchestrator.py lines 86-99). -/
def Graph.add_node (g : Graph) (name : String) (node_type : NodeType)
    (agent : Option Agent := none)
    (router_func : Option (State → String) := none) : Except String Graph :=
  if g.mem_node name then
    Except.error ("Node " ++ name ++ " already exists")
  else
    Except.ok { g with
      nodes := g.nodes ++
        [(name, { name := name, type := node_type, agent := agent,
                  router_func := router_func })] }

/-- Replace the node bound to `name` (in-place mutation of the dict
entry's `Node` object). -/
def Graph.set_node (g : Graph) (name : String) (n : Node) : Graph :=
  { g with nodes := g.nodes.map (fun p => if p.1 = name then (p.1, n) else p) }

/-- Transcribes `add_edge` (orchestrator.py lines 101-115): appends an `Edge` to the
source node's edge list. -/
def Graph.add_edge (g : Graph) (source target : String)
    (condition : Option (State → Bool) := none) : Except String Graph :=
  match g.find_node source with
  | none => Except.error ("Source node " ++ source ++ " not found")
  | some n =>
    if !(g.mem_node target) then
      Except.error ("Target node " ++ target ++ " not found")
    else
      Except.ok (g.set_node source
        { n with edges := n.edges ++
            [{ source := source, target := target, condition := condition }] })

/-- Transcribes `add_conditional_edges` (orchestrator.py lines 117-146): synthesizes
the router node `"{source}_router"`, wires `source` to it
unconditionally, and adds one edge per route guarded by
`router(state) == route_key`. -/
def Graph.add_conditional_edges (g : Graph) (source : String)
    (router : State → String) (routes : List (String × String)) :
    Except String Graph :=
  if !(g.mem_node source) then
    Except.error ("Source node " ++ source ++ " not found")
  else
    -- create the router node and connect source to it
    match g.add_node (source ++ "_router") NodeType.ROUTER none (some router) with
    | Except.error e => Except.error e
    | Except.ok g =>
      match g.add_edge source (source ++ "_router") none with
      | Except.error e => Except.error e
      | Except.ok g =>
        -- connect the router to all possible targets, in dict order
        routes.foldlM (fun g kt =>
          if !(g.mem_node kt.2) then
            Except.error ("Target node " ++ kt.2 ++ " not found")
          else
            g.add_edge (source ++ "_router") kt.2
              (some (fun state => router state == kt.1))) g

/-- Transcribes `set_entry_point` (orchestrator.py lines 148-153). -/
def Graph.set_entry_point (g : Graph) (node_name : String) :
    Except String Graph :=
  if !(g.mem_node node_name) then
    Except.error ("Node " ++ node_name ++ " not found")
  else
    Except.ok { g with entry_point := some node_name }

/-- First-match edge scan (orchestrator.py lines 251-255): the first edge
in insertion order whose predicate holds. -/
def Node.edge_next (node : Node) (state : State) : Option String :=
  (node.edges.find? (fun e => e.should_traverse state)).map (fun e => e.target)

/-- Transcribes `_get_next_node` (orchestrator.py lines 235-255).  Returns the chosen
next node name (or `none` for "no valid edge") together with the state,
which the method mutates when it consumes a truthy `next_agent`
override. -/
def get_next_node (node : Node) (state : State) : Option String × State :=
  let fallback : Option String :=
    match node.type, node.router_func with
    | NodeType.ROUTER, some rf => some (rf state)
    | _, _ => node.edge_next state
  match state.next_agent with
  | some na =>
    if na = "" then (fallback, state)
    else
      (some (if na = "Done" then "END" else na),
       { state with next_agent := none })
  | none => (fallback, state)

/-- The state effect of one loop iteration before routing
(orchestrator.py lines 190-198): an AGENT node with an agent gets
`state["active_agent"] = node.name` and then `run`'s delta merged;
ROUTER (and agent-less) nodes leave the state alone. -/
def run_node (node : Node) (state : State) : State :=
  match node.type, node.agent with
  | NodeType.AGENT, some a =>
    let state := { state with active_agent := some node.name }
    state.update (a.run state)
  | _, _ => state

/-- Outcome of the `try` body of one loop iteration: exit the loop
(`break` on a missing edge) or continue at a node. -/
inductive StepOut where
  | brk (st : State)
  | step (next : String) (st : State)

/-- The `try` body of one iteration (orchestrator.py lines 189-211):
run the node, resolve the next node, break if none, map `"Done"` to
`"END"`.  It is an `Except` computation because Python wraps it in
`try/except`; with agents absorbed by `run` and pure routers and
predicates it never actually raises (see `step_try_ok`). -/
def step_try (node : Node) (state : State) : Except String StepOut :=
  let state := run_node node state
  match get_next_node node state with
  | (none, state) => Except.ok (StepOut.brk state)
  | (some nn, state) =>
    Except.ok (StepOut.step (if nn = "Done" then "END" else nn) state)

/-- The `while current_node_name != "END"` loop of `execute`
(orchestrator.py lines 177-224), with explicit fuel; `none` means the
fuel ran out.  The `Except.error` arm transcribes the `except` handler
of lines 213-224 (mark failed, bump `error_count`, retry the same node
while `error_count < max_retries`, else break); it is unreachable
because `step_try` never raises. -/
def Graph.exec_loop (g : Graph) : Nat → String → State → Option State
  | 0, _, _ => none
  | fuel + 1, current, state =>
    if current = "END" then some state
    else
      match g.find_node current with
      | none =>
        -- orchestrator.py lines 179-184: unknown node, record and break
        some { state with
          status := "failed",
          error_count := state.error_count + 1,
          error_messages := state.error_messages ++
            ["Node " ++ current ++ " not found"] }
      | some node =>
        match step_try node state with
        | Except.ok (StepOut.brk st) => some st
        | Except.ok (StepOut.step next st) => g.exec_loop fuel next st
        | Except.error _ =>
          let st := { state with
            status := "failed", error_count := state.error_count + 1 }
          if st.error_count < st.max_retries then g.exec_loop fuel current st
          else some st

/-- The field seeding at the top of `execute` (orchestrator.py lines
169-173): `start_time`, `status`, `completed_agents`, `errors` and
`error_count` are assigned unconditionally. -/
def init_state (s : State) : State :=
  { s with
    start_time := (),
    status := "executing",
    completed_agents := [],
    errors := [],
    error_count := 0 }

/-- Result of one `execute` call: a returned final state, an uncaught
exception, or fuel exhaustion (the model's stand-in for a loop that runs
longer than the given fuel). -/
inductive ExecOutcome where
  | ok (state : State)
  | exn (msg : String)
  | timeout
  deriving DecidableEq

/-- Transcribes `OrchestratorGraph.execute` (orchestrator.py lines 155-233).  A falsy
entry point (`None` or `""`) raises `ValueError("Entry point not set")`;
otherwise the start node is `state.get("active_agent", entry_point)`, the
state is re-seeded by `init_state`, the loop runs, and on exit a still
`"executing"` status becomes `"completed"`. -/
def Graph.execute (g : Graph) (initial_state : State) (fuel : Nat) :
    ExecOutcome :=
  match g.entry_point with
  | none => ExecOutcome.exn "Entry point not set"
  | some ep =>
    if ep = "" then ExecOutcome.exn "Entry point not set"
    else
      let state := initial_state
      let current := state.active_agent.getD ep
      let state := init_state state
      match g.exec_loop fuel current state with
      | none => ExecOutcome.timeout
      | some st =>
        let st := if st.status = "executing" then { st with status := "completed" } else st
        let st := { st with last_update := () }
        ExecOutcome.ok st

/-- Transcribes `create_default_router` (orchestrator.py lines 273-283): route on the
truthiness of `active_agent`, mapping `"Done"` to `"END"`. -/
def create_default_router (state : State) : String :=
  match state.active_agent with
  | some agent_name =>
    if agent_name = "" then "END"
    else if agent_name = "Done" then "END"
    else agent_name
  | none => "END"

/-! ## Observers on outcomes and states -/

/-- Status of the returned state, if `execute` returned one. -/
def outcome_status : ExecOutcome → Option String
  | ExecOutcome.ok st => some st.status
  | _ => none

/-- The `error_count` of the returned state, if any. -/
def outcome_error_count : ExecOutcome → Option Nat
  | ExecOutcome.ok st => some st.error_count
  | _ => none

/-- The `error_messages` of the returned state, if any. -/
def outcome_error_messages : ExecOutcome → Option (List String)
  | ExecOutcome.ok st => some st.error_messages
  | _ => none

/-- The `completed_agents` of the returned state, if any. -/
def outcome_completed : ExecOutcome → Option (List String)
  | ExecOutcome.ok st => some st.completed_agents
  | _ => none

/-- Number of `agent_history` entries recording a failed attempt of the
named node. -/
def failed_entries_for (st : State) (name : String) : Nat :=
  (st.agent_history.filter (fun h => h.agent == name && h.status == "failed")).length

/-- Value of `failed_entries_for` on the returned state, if any. -/
def outcome_failed_for (o : ExecOutcome) (name : String) : Option Nat :=
  match o with
  | ExecOutcome.ok st => some (failed_entries_for st name)
  | _ => none

/-! ## Concrete fixtures -/

/-- An agent whose `execute` always raises `RuntimeError("boom")`. -/
def agentBad : Agent :=
  { name := "Bad", execute := fun _ => Except.error "boom" }

/-- An agent that succeeds with an empty delta. -/
def agentOkA : Agent :=
  { name := "A", execute := fun _ => Except.ok { success := true } }

/-- An agent named "Done" that succeeds with an empty delta. -/
def agentDone : Agent :=
  { name := "Done", execute := fun _ => Except.ok { success := true } }

/-- Graph with a single always-throwing agent node "Bad" wired
unconditionally to END, entry point "Bad" — the P4 / Scenario 3
topology, parameterized by the agent bound to "Bad". -/
def graph_single_failing (a : Agent) : Graph :=
  match (do
    let g ← (OrchestratorGraph).add_node "Bad" NodeType.AGENT (some a)
    let g ← g.add_edge "Bad" "END"
    g.set_entry_point "Bad" : Except String Graph) with
  | Except.ok g => g
  | Except.error _ => OrchestratorGraph

/-- The P4 / Scenario 3 graph with the concrete throwing agent. -/
def gBad : Graph := graph_single_failing agentBad

/-- Initial state for the retry scenario: `max_retries = 2`, start at
"Bad". -/
def sBad : State :=
  { user_request := "test", active_agent := some "Bad", max_retries := 2 }

/-- A fresh graph whose entry point was never set. -/
def gNE : Graph := OrchestratorGraph

/-- A graph whose entry point is the END node itself (the loop body never
runs). -/
def gE : Graph :=
  match (OrchestratorGraph).set_entry_point "END" with
  | Except.ok g => g
  | Except.error _ => OrchestratorGraph

/-- The empty/default state. -/
def s0 : State := {}

/-- An initial state already carrying caller-supplied values for
`completed_agents`, `error_count` and `status`, starting at END. -/
def sRich : State :=
  { active_agent := some "END", completed_agents := ["X"],
    error_count := 7, status := "failed" }

/-- A plain agent-typed node with no agent, router or edges. -/
def node0 : Node := { name := "N", type := NodeType.AGENT }

/-- A state whose `next_agent` override is set to "B". -/
def stOverride : State := { next_agent := some "B" }

/-- A state whose `next_agent` override is set to "Done". -/
def stDone : State := { next_agent := some "Done" }

/-- Graph with a single agent-less AGENT node "A" whose only edge has an
always-false predicate, entry point "A". -/
def gC2 : Graph :=
  match (do
    let g ← (OrchestratorGraph).add_node "A" NodeType.AGENT
    let g ← g.add_edge "A" "END" (some (fun _ => false))
    g.set_entry_point "A" : Except String Graph) with
  | Except.ok g => g
  | Except.error _ => OrchestratorGraph

/-- The node registered as "A" in `gC2` (agent-less, one always-false
edge to END). -/
def nodeC2 : Node :=
  { name := "A", type := NodeType.AGENT,
    edges := [{ source := "A", target := "END",
                condition := some (fun _ => false) }] }

/-- A router function that constantly answers the route key "X". -/
def routerX : State → String := fun _ => "X"

/-- Base graph for the conditional-edges scenario: agent node "A",
agent-less node "B", entry point "A". -/
def gC5base : Graph :=
  match (do
    let g ← (OrchestratorGraph).add_node "A" NodeType.AGENT (some agentOkA)
    let g ← g.add_node "B" NodeType.AGENT
    g.set_entry_point "A" : Except String Graph) with
  | Except.ok g => g
  | Except.error _ => OrchestratorGraph

/-- The result of `add_conditional_edges("A", routerX, {"X": "B"})` on
`gC5base`. -/
def eC5 : Except String Graph :=
  gC5base.add_conditional_edges "A" routerX [("X", "B")]

/-- The graph built by `add_conditional_edges("A", routerX, {"X": "B"})`. -/
def gC5 : Graph :=
  match eC5 with
  | Except.ok g => g
  | Except.error _ => gC5base

/-- The synthesized router node `"A_router"` of `gC5`. -/
def nC5 : Node :=
  match gC5.find_node ("A" ++ "_router") with
  | some n => n
  | none => node0

/-- An agent that succeeds with an empty delta, named "W". -/
def agentW : Agent :=
  { name := "W", execute := fun _ => Except.ok { success := true } }

/-- Graph with a node named "Done" (bound to a succeeding agent) wired
unconditionally to END, entry point "Done". -/
def gDone : Graph :=
  match (do
    let g ← (OrchestratorGraph).add_node "Done" NodeType.AGENT (some agentDone)
    let g ← g.add_edge "Done" "END"
    g.set_entry_point "Done" : Except String Graph) with
  | Except.ok g => g
  | Except.error _ => OrchestratorGraph

/-- A hand-built graph whose node "A" routes unconditionally to the name
"Done" (which is not a node). -/
def gLit : Graph :=
  { nodes := [("A", { name := "A", type := NodeType.AGENT,
                      edges := [{ source := "A", target := "Done" }] })] }

/-- The node registered as "A" in `gLit`. -/
def nodeLit : Node :=
  { name := "A", type := NodeType.AGENT,
    edges := [{ source := "A", target := "Done" }] }

/-- A state whose `next_agent` override is "Done" (C10 fixture). -/
def stDone10 : State := { next_agent := some "Done" }

/-- A state whose `active_agent` is "Done" (C10 fixture). -/
def stActiveDone : State := { active_agent := some "Done" }

/-! ## Supporting lemmas -/

/-- The `try` body of the loop never raises: agent exceptions are
absorbed inside `Agent.run` (base.py lines 134-157) and routers and edge
predicates are pure, so the engine's `except` handler — the retry policy
of orchestrator.py lines 213-224 — is unreachable. -/
theorem step_try_ok (node : Node) (state : State) :
    ∃ out, step_try node state = Except.ok out := by
  unfold step_try
  rcases h : get_next_node node (run_node node state) with ⟨next, st⟩
  cases next <;> simp [h]

/-- Unfolding of `Agent.run` on the error path: whenever the guarded
body raises — a false precondition or a throwing `execute` — `run`
returns exactly the error delta of base.py lines 140-157. -/
theorem run_error_eq (a : Agent) (s : State) (m : String)
    (h : (if a.validate_preconditions s then a.execute s
          else Except.error ("Preconditions not met for agent " ++ a.name)) =
         Except.error m) :
    a.run s =
      { error_messages := some (s.error_messages ++ ["[" ++ a.name ++ "] " ++ m]),
        error_count := some (s.error_count + 1),
        agent_history := some (s.agent_history ++
          [{ agent := a.name, status := "failed", error := some m }]),
        updated_at := some () } := by
  unfold Agent.run
  rw [h]

/-! ## C3 — unknown start node fails fast -/

/-- C3 (confirmed): for every graph with a (truthy) entry point and every
initial state whose `active_agent` names a node absent from the graph
(and distinct from the END sentinel), `execute` terminates at once — for
every fuel ≥ 1, i.e. after a single loop iteration — returning a state
with `status = "failed"`, `error_count` incremented (from the seeded 0 to
1), and an `error_messages` entry naming the unknown node. -/
theorem C3_unknown_node_fails (g : Graph) (s : State) (fuel : Nat) (ep a : String)
    (hep : g.entry_point = some ep) (hep2 : ep ≠ "")
    (ha : s.active_agent = some a)
    (hmiss : g.find_node a = none)
    (hend : a ≠ "END") (hfuel : 1 ≤ fuel) :
    ∃ st, g.execute s fuel = ExecOutcome.ok st ∧
      st.status = "failed" ∧ st.error_count = 1 ∧
      st.error_messages = s.error_messages ++ ["Node " ++ a ++ " not found"] := by
  obtain ⟨k, rfl⟩ : ∃ k, fuel = k + 1 := ⟨fuel - 1, by omega⟩
  simp only [Graph.execute, hep, hep2, if_neg hep2, ha, Option.getD_some,
    Graph.exec_loop, if_neg hend, hmiss, init_state]
  exact ⟨_, rfl, rfl, rfl, rfl⟩

/-- Witness for C3: the empty orchestrator graph with entry point END and
a start state naming the unregistered node "Ghost". -/
theorem C3_witness :
    ∃ st, gE.execute { active_agent := some "Ghost" } 1 = ExecOutcome.ok st ∧
      st.status = "failed" ∧ st.error_count = 1 ∧
      st.error_messages = ([] : List String) ++ ["Node " ++ "Ghost" ++ " not found"] :=
  C3_unknown_node_fails gE { active_agent := some "Ghost" } 1 "END" "Ghost"
    rfl (by decide) rfl rfl (by decide) (by decide)

/-! ## C7 — missing entry point -/

/-- C7 amended (the claim said a missing entry point yields a returned
Work Record with `status = "failed"` and a diagnostic in
`error_messages`; in the code it does not): when the entry point is unset
(or falsy), `execute` raises `ValueError("Entry point not set")` to the
caller before touching the state — the caller receives an exception, not
a Work Record (orchestrator.py lines 161-162). -/
theorem C7_missing_entry_raises (g : Graph) (s : State) (fuel : Nat)
    (h : g.entry_point = none ∨ g.entry_point = some "") :
    g.execute s fuel = ExecOutcome.exn "Entry point not set" := by
  rcases h with h | h <;> simp [Graph.execute, h]

/-- Witness for C7: a fresh graph with no entry point. -/
theorem C7_witness :
    gNE.execute s0 5 = ExecOutcome.exn "Entry point not set" :=
  C7_missing_entry_raises gNE s0 5 (Or.inl rfl)

/-- Counterexample to C7 as stated: with no entry point set the caller
gets the `ValueError` and no final state at all — there is no returned
record whose `status` could be `"failed"` or whose `error_messages`
could carry a diagnostic. -/
theorem C7_counterexample :
    gNE.execute s0 5 = ExecOutcome.exn "Entry point not set" ∧
    outcome_status (gNE.execute s0 5) = none ∧
    outcome_error_messages (gNE.execute s0 5) = none := by
  refine ⟨rfl, rfl, rfl⟩

/-! ## C9 — initial seeding overwrites caller-supplied fields -/

/-- C9 amended (the claim said only missing fields are seeded and
caller-supplied `completed_agents` / `error_count` / `status` are
preserved; in the code they are not): the seeding at the top of
`execute` (orchestrator.py lines 169-173) *unconditionally* overwrites
`status := "executing"`, `completed_agents := []`, `errors := []` and
`error_count := 0`, while `error_messages`, `agent_history`, `messages`,
`next_agent`, `active_agent`, `max_retries` and the seed inputs are
passed through unchanged into the loop. -/
theorem C9_seeding_overwrites (s : State) :
    (init_state s).status = "executing" ∧
    (init_state s).completed_agents = [] ∧
    (init_state s).errors = [] ∧
    (init_state s).error_count = 0 ∧
    (init_state s).error_messages = s.error_messages ∧
    (init_state s).agent_history = s.agent_history ∧
    (init_state s).messages = s.messages ∧
    (init_state s).next_agent = s.next_agent ∧
    (init_state s).active_agent = s.active_agent ∧
    (init_state s).max_retries = s.max_retries ∧
    (init_state s).user_request = s.user_request ∧
    (init_state s).project_id = s.project_id :=
  ⟨rfl, rfl, rfl, rfl, rfl, rfl, rfl, rfl, rfl, rfl, rfl, rfl⟩

/-- Counterexample to C9 as stated: an initial state carrying
`completed_agents = ["X"]`, `error_count = 7`, `status = "failed"` and
starting at END comes back with those values replaced by the seeded
defaults (`[]`, `0`, and `"executing"`, finalized to `"completed"`). -/
theorem C9_counterexample :
    outcome_completed (gE.execute sRich 5) = some [] ∧
    outcome_error_count (gE.execute sRich 5) = some 0 ∧
    outcome_status (gE.execute sRich 5) = some "completed" := by
  refine ⟨rfl, rfl, rfl⟩

/-! ## C6 — one-shot `next_agent` override -/

/-- C6 amended (the claim said resolution returns *exactly* the override
value; the code first maps the sentinel `"Done"` to `"END"`): for every
state whose `next_agent` is a non-empty value `v`, `_get_next_node`
ignores the node's router and edges, returns `v` (or `"END"` when
`v = "Done"`), and clears `next_agent` to `None` in the same step, so
the override is consumed at most once (orchestrator.py lines 237-244). -/
theorem C6_next_agent_override (node : Node) (st : State) (v : String)
    (hv : st.next_agent = some v) (hne : v ≠ "") :
    get_next_node node st =
      (some (if v = "Done" then "END" else v),
       { st with next_agent := none }) := by
  simp [get_next_node, hv, hne]

/-- Witness for C6: override "B" on a node with no edges — resolution
returns "B" and clears the override. -/
theorem C6_witness :
    get_next_node node0 stOverride =
      (some (if "B" = "Done" then "END" else "B"),
       { stOverride with next_agent := none }) :=
  C6_next_agent_override node0 stOverride "B" rfl (by decide)

/-- Counterexample to C6 as stated: with `next_agent = "Done"` (a
non-empty value) resolution returns `"END"`, not the override value
itself. -/
theorem C6_counterexample :
    (get_next_node node0 stDone).1 = some "END" ∧
    (get_next_node node0 stDone).1 ≠ some "Done" := by
  refine ⟨rfl, by decide⟩

/-! ## C4 — `BaseAgent.run` absorbs failures -/

/-- C4 amended (the claim said the `error_messages` entry has the shape
`"{name}: {message}"`; the code writes `"[{name}] {message}"`,
base.py line 141): for every agent and state, whenever the guarded body
raises — `validate_preconditions` returning false raises
`ValueError("Preconditions not met for agent {name}")`, or `execute`
raises with message `m` — `run` returns normally (it is a total
function) with exactly the error delta: `error_messages` extended by
`"[{name}] {m}"`, `error_count` incremented by one, and a `failed`
`agent_history` record carrying the error text (base.py lines 134-157). -/
theorem C4_run_error_delta (a : Agent) (s : State) (m : String)
    (h : (if a.validate_preconditions s then a.execute s
          else Except.error ("Preconditions not met for agent " ++ a.name)) =
         Except.error m) :
    a.run s =
      { error_messages := some (s.error_messages ++ ["[" ++ a.name ++ "] " ++ m]),
        error_count := some (s.error_count + 1),
        agent_history := some (s.agent_history ++
          [{ agent := a.name, status := "failed", error := some m }]),
        updated_at := some () } :=
  run_error_eq a s m h

/-- Witness for C4: the always-throwing agent on the default state. -/
theorem C4_witness :
    agentBad.run s0 =
      { error_messages := some (s0.error_messages ++ ["[" ++ "Bad" ++ "] " ++ "boom"]),
        error_count := some (s0.error_count + 1),
        agent_history := some (s0.agent_history ++
          [{ agent := "Bad", status := "failed", error := some "boom" }]),
        updated_at := some () } :=
  C4_run_error_delta agentBad s0 "boom" rfl

/-- Counterexample to C4 as stated: the recorded error entry is
`"[Bad] boom"`, not `"Bad: boom"`. -/
theorem C4_counterexample :
    (agentBad.run s0).error_messages = some ["[Bad] boom"] ∧
    (agentBad.run s0).error_messages ≠ some ["Bad: boom"] := by
  refine ⟨rfl, by decide⟩

/-- Loop unfolding: at the END sentinel the loop exits and returns the
state. -/
theorem exec_loop_end (g : Graph) (fuel : Nat) (st : State) :
    g.exec_loop (fuel + 1) "END" st = some st := by
  simp [Graph.exec_loop]

/-- Loop unfolding: a successful iteration that resolved a next node
continues there. -/
theorem exec_loop_step (g : Graph) (fuel : Nat) (cur : String) (node : Node)
    (st st2 : State) (nxt : String)
    (hend : cur ≠ "END")
    (hfind : g.find_node cur = some node)
    (hstep : step_try node st = Except.ok (StepOut.step nxt st2)) :
    g.exec_loop (fuel + 1) cur st = g.exec_loop fuel nxt st2 := by
  simp [Graph.exec_loop, hend, hfind, hstep]

/-- Loop unfolding: an iteration that found no valid edge breaks with
the post-node state, recording nothing. -/
theorem exec_loop_brk (g : Graph) (fuel : Nat) (cur : String) (node : Node)
    (st st2 : State)
    (hend : cur ≠ "END")
    (hfind : g.find_node cur = some node)
    (hstep : step_try node st = Except.ok (StepOut.brk st2)) :
    g.exec_loop (fuel + 1) cur st = some st2 := by
  simp [Graph.exec_loop, hend, hfind, hstep]

/-- Unfolding of `execute` with a truthy entry point: seed the state, run the loop
from `state.get("active_agent", entry_point)`, finalize the status. -/
theorem execute_eq (g : Graph) (s : State) (fuel : Nat) (ep : String)
    (hep : g.entry_point = some ep) (hne : ep ≠ "") :
    g.execute s fuel =
      match g.exec_loop fuel (s.active_agent.getD ep) (init_state s) with
      | none => ExecOutcome.timeout
      | some st => ExecOutcome.ok
          { (if st.status = "executing" then { st with status := "completed" }
             else st) with last_update := () } := by
  simp [Graph.execute, hep, hne]

/-! ## C1 — the retry/escalation policy never fires for agent failures -/

/-- C1 amended (the claim said `execute` re-runs an always-throwing node
while `error_count < max_retries` and, at `max_retries = 2`, ends with
`error_count = 2`, two failed `agent_history` entries, and
`status = "error_requires_human_input"`; the code does none of this):
the engine's retry/escalation branch (orchestrator.py lines 213-224) is
only reachable from an exception inside the loop body, and
`BaseAgent.run` catches every agent exception (base.py lines 134-157),
so an always-throwing node is attempted exactly once.  For the P4 /
Scenario 3 topology — node "Bad" wired unconditionally to END — and any
initial state with `max_retries = 2`, fresh history and no pending
override, `execute` terminates (for every fuel ≥ 2) with
`error_count = 1`, exactly one failed `agent_history` entry for "Bad",
and final `status = "completed"`. -/
theorem C1_no_retry_no_escalation (a : Agent) (s : State) (m : String) (fuel : Nat)
    (hname : a.name = "Bad")
    (hex : ∀ st, a.execute st = Except.error m)
    (ha : s.active_agent = some "Bad")
    (hna : s.next_agent = none)
    (hh : s.agent_history = [])
    (hmr : s.max_retries = 2)
    (hfuel : 2 ≤ fuel) :
    ∃ st, (graph_single_failing a).execute s fuel = ExecOutcome.ok st ∧
      st.status = "completed" ∧
      st.error_count = 1 ∧
      failed_entries_for st "Bad" = 1 := by
  obtain ⟨k, rfl⟩ : ∃ k, fuel = k + 1 + 1 := ⟨fuel - 2, by omega⟩
  have hentry : (graph_single_failing a).entry_point = some "Bad" := rfl
  set badN : Node :=
    { name := "Bad", type := NodeType.AGENT, agent := some a,
      edges := [{ source := "Bad", target := "END" }] } with hbadN
  have hfind : (graph_single_failing a).find_node "Bad" = some badN := rfl
  set st1 : State := { init_state s with active_agent := some "Bad" } with hst1
  -- whatever `validate_preconditions` answers, the attempt raises
  obtain ⟨m2, hthrow⟩ :
      ∃ m2, (if a.validate_preconditions st1 then a.execute st1
             else Except.error ("Preconditions not met for agent " ++ a.name)) =
            Except.error m2 := by
    cases hv : a.validate_preconditions st1 with
    | false =>
      exact ⟨"Preconditions not met for agent " ++ a.name, by simp [hv]⟩
    | true => exact ⟨m, by simp [hv, hex st1]⟩
  have hdelta := run_error_eq a st1 m2 hthrow
  rw [hname] at hdelta
  set D : Updates :=
    { error_messages := some (st1.error_messages ++ ["[" ++ "Bad" ++ "] " ++ m2]),
      error_count := some (st1.error_count + 1),
      agent_history := some (st1.agent_history ++
        [{ agent := "Bad", status := "failed", error := some m2 }]),
      updated_at := some () } with hD
  have hna2 : (st1.update D).next_agent = none := hna
  have hnext : get_next_node badN (st1.update D) = (some "END", st1.update D) := by
    simp only [get_next_node, hna2]
    rfl
  have hrn : run_node badN (init_state s) = st1.update D := by
    show st1.update (a.run st1) = st1.update D
    rw [hdelta]
  have hstep : step_try badN (init_state s) =
      Except.ok (StepOut.step "END" (st1.update D)) := by
    simp only [step_try, hrn, hnext]
    rfl
  have hloop : (graph_single_failing a).exec_loop (k + 1 + 1) "Bad" (init_state s) =
      some (st1.update D) := by
    rw [exec_loop_step (graph_single_failing a) (k + 1) "Bad" badN
        (init_state s) (st1.update D) "END" (by decide) hfind hstep,
      exec_loop_end]
  have hexe : (graph_single_failing a).execute s (k + 1 + 1) =
      ExecOutcome.ok { st1.update D with status := "completed", last_update := () } := by
    rw [execute_eq (graph_single_failing a) s (k + 1 + 1) "Bad" hentry (by decide),
      ha]
    simp only [Option.getD_some]
    rw [hloop]
    have hstat : (st1.update D).status = "executing" := rfl
    simp [hstat]
  refine ⟨_, hexe, rfl, rfl, ?_⟩
  have hhist : (st1.update D).agent_history =
      s.agent_history ++ [{ agent := "Bad", status := "failed", error := some m2 }] := rfl
  simp only [failed_entries_for, hhist, hh]
  rfl

/-- Witness for C1: the concrete throwing agent, starting state of the
retry scenario, fuel 10. -/
theorem C1_witness :
    ∃ st, (graph_single_failing agentBad).execute sBad 10 = ExecOutcome.ok st ∧
      st.status = "completed" ∧
      st.error_count = 1 ∧
      failed_entries_for st "Bad" = 1 :=
  C1_no_retry_no_escalation agentBad sBad "boom" 10 rfl (fun _ => rfl)
    rfl rfl rfl rfl (by decide)

/-- Counterexample to C1 as stated: with node "Bad" always throwing and
`max_retries = 2`, the run ends with `error_count = 1` (not 2), one
failed history entry (not 2), and `status = "completed"` (not
`"error_requires_human_input"`). -/
theorem C1_counterexample :
    outcome_error_count (gBad.execute sBad 10) = some 1 ∧
    outcome_error_count (gBad.execute sBad 10) ≠ some 2 ∧
    outcome_failed_for (gBad.execute sBad 10) "Bad" = some 1 ∧
    outcome_status (gBad.execute sBad 10) = some "completed" ∧
    outcome_status (gBad.execute sBad 10) ≠ some "error_requires_human_input" := by
  refine ⟨rfl, by decide, rfl, rfl, by decide⟩

/-! ## C2 — no matching edge: break, but no failure recorded -/

/-- C2 amended (the claim said that a node whose outgoing edges all have
false predicates makes `execute` return `status = "failed"`; the code
merely logs a warning and breaks): when the loop reaches a node whose
edge predicates are all false in the current (post-node) state, with no
pending `next_agent` override and no router function to consult, the
loop stops at that step and returns the post-node state *unchanged* —
no failure status, error count or error message is recorded
(orchestrator.py lines 200-205), so a clean run ends `"completed"`. -/
theorem C2_no_matching_edge_breaks (g : Graph) (fuel : Nat) (cur : String)
    (node : Node) (st : State)
    (hfind : g.find_node cur = some node)
    (hend : cur ≠ "END")
    (hna : (run_node node st).next_agent = none)
    (hrouter : node.type = NodeType.ROUTER → node.router_func = none)
    (hedges : ∀ e ∈ node.edges, e.should_traverse (run_node node st) = false) :
    g.exec_loop (fuel + 1) cur st = some (run_node node st) := by
  have hfall : node.edge_next (run_node node st) = none := by
    unfold Node.edge_next
    rw [Option.map_eq_none', List.find?_eq_none]
    intro e he
    simp [hedges e he]
  have hgn : get_next_node node (run_node node st) = (none, run_node node st) := by
    simp only [get_next_node, hna]
    rcases htype : node.type with _ | _ | _
    · simp [htype, hfall]
    · have hrf := hrouter htype
      simp [htype, hrf, hfall]
    · simp [htype, hfall]
  have hstep : step_try node st = Except.ok (StepOut.brk (run_node node st)) := by
    simp only [step_try, hgn]
  exact exec_loop_brk g fuel cur node st (run_node node st) hend hfind hstep

/-- Witness for C2: the agent-less node "A" of `gC2`, whose only edge
has an always-false predicate — the loop breaks and hands back the
state as-is. -/
theorem C2_witness :
    gC2.exec_loop 1 "A" s0 = some (run_node nodeC2 s0) :=
  C2_no_matching_edge_breaks gC2 0 "A" nodeC2 s0 rfl (by decide) rfl
    (fun h => nomatch h)
    (by
      intro e he
      simp only [nodeC2, List.mem_singleton] at he
      subst he
      rfl)

/-- Counterexample to C2 as stated: executing `gC2` (entry "A", single
always-false edge) ends with `status = "completed"` and `error_count
= 0`, not `status = "failed"`. -/
theorem C2_counterexample :
    outcome_status (gC2.execute { active_agent := some "A" } 5) = some "completed" ∧
    outcome_status (gC2.execute { active_agent := some "A" } 5) ≠ some "failed" ∧
    outcome_error_count (gC2.execute { active_agent := some "A" } 5) = some 0 := by
  refine ⟨rfl, by decide, rfl⟩

/-! ## C8 — `completed_agents` is an append-once log -/

/-- The `completed_agents` component of the delta returned by
`BaseAgent.run`: the error path never sets it; the success path sets it
to `completed_agents ++ [name]` exactly when the name is absent and the
result reported success, and otherwise passes through whatever the
agent's own `state_updates` carried (base.py lines 103-107). -/
theorem run_completed_agents (a : Agent) (s : State) :
    (a.run s).completed_agents =
      match (if a.validate_preconditions s then a.execute s
             else Except.error ("Preconditions not met for agent " ++ a.name)) with
      | Except.ok r =>
        if !(s.completed_agents.contains a.name) && r.success then
          some (s.completed_agents ++ [a.name])
        else r.state_updates.completed_agents
      | Except.error _ => none := by
  unfold Agent.run
  cases hx : (if a.validate_preconditions s then a.execute s
              else Except.error ("Preconditions not met for agent " ++ a.name)) with
  | error e => rfl
  | ok r =>
    cases hna : r.next_agent with
    | none =>
      by_cases hm : r.messages = [] <;>
        simp [hna, hm] <;> (split <;> rfl)
    | some na =>
      by_cases he : na = "" <;> by_cases hm : r.messages = [] <;>
        simp [hna, he, hm] <;> (split <;> rfl)

/-- C8 (confirmed): across any merge of a `BaseAgent.run` delta into a
duplicate-free state — hypothesis: the agent's own `state_updates` does
not write the engine-owned key `completed_agents`, as no agent in the
repository does — `completed_agents` stays duplicate-free, and it
either is unchanged or gains exactly the node's name, appended only
when the name was absent and `execute` reported success; failed and
throwing attempts never change it. -/
theorem C8_completed_agents_no_duplicates (a : Agent) (s : State)
    (hupd : ∀ r, a.execute s = Except.ok r → r.state_updates.completed_agents = none)
    (hnd : s.completed_agents.Nodup) :
    ((s.update (a.run s)).completed_agents).Nodup ∧
    ((s.update (a.run s)).completed_agents = s.completed_agents ∨
      ((s.update (a.run s)).completed_agents = s.completed_agents ++ [a.name] ∧
       a.name ∉ s.completed_agents ∧
       ∃ r, a.execute s = Except.ok r ∧ r.success = true)) := by
  have hca := run_completed_agents a s
  cases hx : (if a.validate_preconditions s then a.execute s
              else Except.error ("Preconditions not met for agent " ++ a.name)) with
  | error e =>
    rw [hx] at hca
    have hkeep : (s.update (a.run s)).completed_agents = s.completed_agents := by
      simp [State.update, hca]
    exact ⟨by rw [hkeep]; exact hnd, Or.inl hkeep⟩
  | ok r =>
    rw [hx] at hca
    dsimp only at hca
    have hexec : a.execute s = Except.ok r := by
      by_cases hv : a.validate_preconditions s = true
      · rwa [if_pos hv] at hx
      · rw [if_neg hv] at hx
        exact absurd hx (by simp)
    have hru := hupd r hexec
    by_cases hc : (!(s.completed_agents.contains a.name) && r.success) = true
    · rw [if_pos hc] at hca
      have hc2 : (!(s.completed_agents.contains a.name)) = true ∧ r.success = true := by
        simpa using hc
      have hmem : a.name ∉ s.completed_agents := by
        have h1 := hc2.1
        simp only [Bool.not_eq_true'] at h1
        simpa using h1
      have hsucc : r.success = true := hc2.2
      have happ : (s.update (a.run s)).completed_agents =
          s.completed_agents ++ [a.name] := by
        simp [State.update, hca]
      refine ⟨?_, Or.inr ⟨happ, hmem, r, hexec, hsucc⟩⟩
      rw [happ]
      simp [List.nodup_append, hnd, hmem]
    · rw [if_neg hc, hru] at hca
      have hkeep : (s.update (a.run s)).completed_agents = s.completed_agents := by
        simp [State.update, hca]
      exact ⟨by rw [hkeep]; exact hnd, Or.inl hkeep⟩

/-- Witness for C8: the succeeding agent "W" merged into the empty
state keeps `completed_agents` duplicate-free. -/
theorem C8_witness :
    ((s0.update (agentW.run s0)).completed_agents).Nodup :=
  (C8_completed_agents_no_duplicates agentW s0
    (fun r h => by cases h; rfl) (by decide)).1

/-! ## C5 — conditional edges: construction lemmas -/

/-- Bind on an `Except.ok` value applies the continuation. -/
theorem except_bind_ok {α β : Type} (a : α) (f : α → Except String β) :
    (Except.ok a : Except String α) >>= f = f a := rfl

/-- Bind on an `Except.error` value propagates the error. -/
theorem except_bind_error {α β : Type} (e : String) (f : α → Except String β) :
    (Except.error e : Except String α) >>= f = Except.error e := rfl

/-- Replacing the node bound to `nm` makes `find_node nm` answer the
replacement, provided the binding existed. -/
theorem set_node_find_self (g : Graph) (nm : String) (n n0 : Node)
    (h : g.find_node nm = some n0) :
    (g.set_node nm n).find_node nm = some n := by
  rcases g with ⟨gn, nodes, ep⟩
  simp only [Graph.find_node, Graph.set_node] at h ⊢
  revert h
  induction nodes with
  | nil => intro h; simp at h
  | cons p rest ih =>
    intro h
    by_cases hp : p.1 = nm
    · simp only [List.map_cons, if_pos hp]
      rw [List.find?_cons_of_pos _ (by simpa using hp)]
      simp
    · simp only [List.map_cons, if_neg hp]
      rw [List.find?_cons_of_neg _ (by simpa using hp)]
      rw [List.find?_cons_of_neg _ (by simpa using hp)] at h
      exact ih h

/-- Replacing the node bound to `nm` leaves lookups of other names
unchanged. -/
theorem set_node_find_other (g : Graph) (nm other : String) (n : Node)
    (hne : other ≠ nm) :
    (g.set_node nm n).find_node other = g.find_node other := by
  rcases g with ⟨gn, nodes, ep⟩
  simp only [Graph.find_node, Graph.set_node]
  induction nodes with
  | nil => simp
  | cons p rest ih =>
    by_cases hp : p.1 = nm
    · have hpo : ¬(p.1 = other) := by
        rw [hp]; exact fun hh => hne hh.symm
      simp only [List.map_cons, if_pos hp]
      rw [List.find?_cons_of_neg _ (by simpa using hpo),
        List.find?_cons_of_neg _ (by simpa using hpo)]
      exact ih
    · by_cases hpo : p.1 = other
      · simp only [List.map_cons, if_neg hp]
        rw [List.find?_cons_of_pos _ (by simpa using hpo),
          List.find?_cons_of_pos _ (by simpa using hpo)]
      · simp only [List.map_cons, if_neg hp]
        rw [List.find?_cons_of_neg _ (by simpa using hpo),
          List.find?_cons_of_neg _ (by simpa using hpo)]
        exact ih

/-- A successful `add_node` makes the new name resolve to a fresh node
with the given kind, agent and router function. -/
theorem add_node_find_new (g g2 : Graph) (name : String) (t : NodeType)
    (ag : Option Agent) (rf : Option (State → String))
    (h : g.add_node name t ag rf = Except.ok g2) :
    g2.find_node name =
      some { name := name, type := t, agent := ag, router_func := rf } := by
  unfold Graph.add_node at h
  by_cases hm : g.mem_node name = true
  · rw [if_pos hm] at h
    exact absurd h (by simp)
  · rw [if_neg hm] at h
    injection h with h
    subst h
    have hnone : g.nodes.find? (fun p => p.1 = name) = none := by
      have h2 : ¬(g.find_node name).isSome = true := by
        simpa [Graph.mem_node] using hm
      unfold Graph.find_node at h2
      cases hf : g.nodes.find? (fun p => p.1 = name) with
      | none => rfl
      | some v => rw [hf] at h2; simp at h2
    unfold Graph.find_node
    simp only [List.find?_append, hnone, Option.none_or]
    rw [List.find?_cons_of_pos _ (by simp)]
    simp

/-- A successful `add_edge` rewrites the source node by appending the
new edge, leaving its other fields intact. -/
theorem add_edge_find_source (g g2 : Graph) (src tgt : String)
    (cond : Option (State → Bool)) (n : Node)
    (h : g.add_edge src tgt cond = Except.ok g2)
    (hfind : g.find_node src = some n) :
    g2.find_node src =
      some { n with edges := n.edges ++
        [{ source := src, target := tgt, condition := cond }] } := by
  unfold Graph.add_edge at h
  rw [hfind] at h
  dsimp only at h
  by_cases hm : g.mem_node tgt = true
  · rw [if_neg (by simp [hm])] at h
    injection h with h
    subst h
    exact set_node_find_self g src _ n hfind
  · have hm2 : g.mem_node tgt = false := by simpa using hm
    rw [if_pos (by simp [hm2])] at h
    exact absurd h (by simp)

/-- A successful `add_edge` does not disturb lookups of nodes other
than the source. -/
theorem add_edge_find_other (g g2 : Graph) (src tgt other : String)
    (cond : Option (State → Bool))
    (h : g.add_edge src tgt cond = Except.ok g2)
    (hne : other ≠ src) :
    g2.find_node other = g.find_node other := by
  unfold Graph.add_edge at h
  cases hf : g.find_node src with
  | none => rw [hf] at h; exact absurd h (by simp)
  | some n =>
    rw [hf] at h
    dsimp only at h
    by_cases hm : g.mem_node tgt = true
    · rw [if_neg (by simp [hm])] at h
      injection h with h
      subst h
      exact set_node_find_other g src other _ hne
    · have hm2 : g.mem_node tgt = false := by simpa using hm
      rw [if_pos (by simp [hm2])] at h
      exact absurd h (by simp)

/-- The route-table fold of `add_conditional_edges` only appends edges
to the router node: its kind and router function survive. -/
theorem foldl_routes_preserves (source : String) (router : State → String)
    (routes : List (String × String)) :
    ∀ (g g2 : Graph) (n : Node),
      routes.foldlM (fun g kt =>
        if !(g.mem_node kt.2) then
          Except.error ("Target node " ++ kt.2 ++ " not found")
        else
          g.add_edge (source ++ "_router") kt.2
            (some (fun state => router state == kt.1))) g = Except.ok g2 →
      g.find_node (source ++ "_router") = some n →
      ∃ n2, g2.find_node (source ++ "_router") = some n2 ∧
        n2.type = n.type ∧ n2.router_func = n.router_func := by
  induction routes with
  | nil =>
    intro g g2 n h hf
    simp only [List.foldlM_nil] at h
    injection h with h
    subst h
    exact ⟨n, hf, rfl, rfl⟩
  | cons kt rest ih =>
    intro g g2 n h hf
    simp only [List.foldlM_cons] at h
    by_cases hm : g.mem_node kt.2 = true
    · rw [if_neg (by simp [hm])] at h
      cases hae : g.add_edge (source ++ "_router") kt.2
          (some fun state => router state == kt.1) with
      | error e => rw [hae, except_bind_error] at h; exact absurd h (by simp)
      | ok g1 =>
        rw [hae, except_bind_ok] at h
        have hf2 := add_edge_find_source g g1 _ kt.2 _ n hae hf
        obtain ⟨n2, hfind2, ht, hr⟩ := ih g1 g2 _ h hf2
        exact ⟨n2, hfind2, ht, hr⟩
    · have hm2 : g.mem_node kt.2 = false := by simpa using hm
      rw [if_pos (by simp [hm2]), except_bind_error] at h
      exact absurd h (by simp)

/-- After a successful `add_conditional_edges(source, router, routes)`,
the synthesized node `"{source}_router"` exists, has ROUTER kind, and
carries exactly the given router function. -/
theorem add_conditional_edges_router_node (g g2 : Graph) (source : String)
    (router : State → String) (routes : List (String × String))
    (h : g.add_conditional_edges source router routes = Except.ok g2) :
    ∃ n, g2.find_node (source ++ "_router") = some n ∧
      n.type = NodeType.ROUTER ∧ n.router_func = some router := by
  unfold Graph.add_conditional_edges at h
  by_cases hm : g.mem_node source = true
  · rw [if_neg (by simp [hm])] at h
    cases han : g.add_node (source ++ "_router") NodeType.ROUTER none (some router) with
    | error e => rw [han] at h; exact absurd h (by simp)
    | ok ga =>
      rw [han] at h
      dsimp only at h
      have hfa := add_node_find_new g ga _ _ _ _ han
      cases hae : ga.add_edge source (source ++ "_router") none with
      | error e => rw [hae] at h; exact absurd h (by simp)
      | ok gb =>
        rw [hae] at h
        dsimp only at h
        have hne : source ++ "_router" ≠ source := by
          intro hEq
          have hlen := congrArg String.length hEq
          have h7 : ("_router" : String).length = 7 := rfl
          rw [String.length_append, h7] at hlen
          omega
        have hfb : gb.find_node (source ++ "_router") =
            some { name := source ++ "_router", type := NodeType.ROUTER,
                   agent := none, router_func := some router } := by
          rw [add_edge_find_other ga gb source (source ++ "_router")
            (source ++ "_router") none hae hne]
          exact hfa
        obtain ⟨n2, hf2, ht, hr⟩ :=
          foldl_routes_preserves source router routes gb g2 _ h hfb
        exact ⟨n2, hf2, ht, hr⟩
  · have hm2 : g.mem_node source = false := by simpa using hm
    rw [if_pos (by simp [hm2])] at h
    exact absurd h (by simp)

/-- C5 amended (the claim said the node executed after `source` is
`routeTable[routerFn(state)]`, selected by first-match edge predicates;
the code never consults the router node's edges): for every graph built
with `add_conditional_edges(source, routerFn, routeTable)`, control
passes from `source` to the synthesized `"{source}_router"` node, and
`_get_next_node` then returns `routerFn(state)` *itself* as the next
node name (orchestrator.py lines 247-248) — the `routeTable` is used
only to synthesize edges that are never evaluated, so the engine
proceeds to the node *named* `routerFn(state)`, not to
`routeTable[routerFn(state)]`. -/
theorem C5_router_bypasses_route_table (g g2 : Graph) (source : String)
    (router : State → String) (routes : List (String × String))
    (st : State) (n : Node)
    (hbuild : g.add_conditional_edges source router routes = Except.ok g2)
    (hfind : g2.find_node (source ++ "_router") = some n)
    (hna : st.next_agent = none) :
    (get_next_node n st).1 = some (router st) := by
  obtain ⟨n2, hf2, ht, hr⟩ :=
    add_conditional_edges_router_node g g2 source router routes hbuild
  rw [hfind] at hf2
  injection hf2 with hf2
  subst hf2
  simp [get_next_node, hna, ht, hr]

/-- Witness for C5: on the concrete build with routes `{"X": "B"}` and
a router constantly answering "X", the router node resolves to "X"
itself. -/
theorem C5_witness :
    (get_next_node nC5 s0).1 = some (routerX s0) :=
  C5_router_bypasses_route_table gC5base gC5 "A" routerX [("X", "B")] s0 nC5
    rfl rfl rfl

/-- Counterexample to C5 as stated: with routes `{"X": "B"}` and
`routerFn ≡ "X"`, the claim predicts node "B" executes next; instead
the engine walks to the non-node name "X" and the execution dies with
`status = "failed"` and `"Node X not found"` — "B" is never reached
(`completed_agents` stays `["A"]`). -/
theorem C5_counterexample :
    outcome_status (gC5.execute { active_agent := some "A" } 10) = some "failed" ∧
    outcome_error_messages (gC5.execute { active_agent := some "A" } 10) =
      some ["Node X not found"] ∧
    outcome_completed (gC5.execute { active_agent := some "A" } 10) = some ["A"] := by
  refine ⟨rfl, rfl, rfl⟩

/-! ## C10 — the "Done" terminal sentinel -/

/-- C10 amended (the claim added "so a node named `Done` can never be
executed", which the initial step disproves): the three mapping points
do treat `"Done"` as `"END"` — (1) a `next_agent` override of `"Done"`
resolves to `"END"` (orchestrator.py lines 241-243), (2)
`create_default_router` maps an `active_agent` of `"Done"` to `"END"`
(lines 280-281), and (3) whenever a loop iteration resolves its next
node to `"Done"`, the loop continues at `"END"` and therefore
terminates on the spot (lines 207-211).  However the *initial* node
name — from the caller's `active_agent` or the entry point — is not
passed through this mapping, so a node named `"Done"` can still be
executed as the first node (see the counterexample). -/
theorem C10_done_maps_to_end :
    (∀ (node : Node) (st : State), st.next_agent = some "Done" →
      (get_next_node node st).1 = some "END") ∧
    (∀ st : State, st.active_agent = some "Done" →
      create_default_router st = "END") ∧
    (∀ (g : Graph) (fuel : Nat) (cur : String) (node : Node) (st : State),
      g.find_node cur = some node → cur ≠ "END" →
      (get_next_node node (run_node node st)).1 = some "Done" →
      g.exec_loop (fuel + 1 + 1) cur st =
        some (get_next_node node (run_node node st)).2) := by
  refine ⟨?_, ?_, ?_⟩
  · intro node st h
    simp [get_next_node, h]
  · intro st h
    simp [create_default_router, h]
  · intro g fuel cur node st hfind hend hnext
    rcases hgp : get_next_node node (run_node node st) with ⟨n1, s1⟩
    rw [hgp] at hnext
    simp only at hnext
    subst hnext
    show g.exec_loop (fuel + 1 + 1) cur st = some s1
    have hstep : step_try node st = Except.ok (StepOut.step "END" s1) := by
      simp only [step_try, hgp]
      rfl
    rw [exec_loop_step g (fuel + 1) cur node st s1 "END" hend hfind hstep,
      exec_loop_end]

/-- Witness for C10: the three mapping points at concrete inputs, the
third on the hand-built graph routing "A" to the name "Done". -/
theorem C10_witness :
    (get_next_node node0 stDone10).1 = some "END" ∧
    create_default_router stActiveDone = "END" ∧
    gLit.exec_loop 2 "A" s0 = some s0 := by
  refine ⟨C10_done_maps_to_end.1 node0 stDone10 rfl,
    C10_done_maps_to_end.2.1 stActiveDone rfl, ?_⟩
  exact C10_done_maps_to_end.2.2 gLit 0 "A" nodeLit s0 rfl (by decide) rfl

/-- Counterexample to C10 as stated: a node *named* "Done" is
executable — starting the execution at it runs its agent, which lands
in `completed_agents`. -/
theorem C10_counterexample :
    outcome_completed (gDone.execute stActiveDone 5) = some ["Done"] ∧
    outcome_status (gDone.execute stActiveDone 5) = some "completed" := by
  refine ⟨rfl, rfl⟩
